import Mathlib

/-!
Shallow embedding of the zoid parent component
(src/src/component/parent/index.js): the close/lifecycle cluster, the error
path, the render task graph, the bootstrap registries, the remote-render
guard, resize, and the memoized outlet.  All asynchronous work in the source
is expressed as ZalgoPromise chains, which resolve synchronously whenever the
continuations are synchronous; the models below therefore run each method to
completion as a state transformer, in the exact sequencing of the source.
-/

namespace Zoid

namespace Lifecycle

/-- Modelled from the spec: the CLOSE_REASONS constants live in the constants
module, which is not among the provided sources; these are the three reasons
the parent component uses (close default, userClose, watchForClose). -/
inductive CloseReason
  | parentCall
  | userClosed
  | closeDetected
deriving DecidableEq

/-- Tags of cleanup-registry entries registered by the parent component
(the string tags of the source clean.register calls); untagged registrations
(active-component bookkeeping, registry deletes, animation cancels) are
numbered anonymous entries. -/
inductive CTag
  | unloadListener
  | closeWindowListener
  | containerEvents
  | containerTemplate
  | destroyWindowEntry
  | anon (n : Nat)
deriving DecidableEq

/-- Modelled from the spec: CONTEXT_TYPES (constants module not in the
provided sources); the render context kind selected at construction. -/
inductive CtxType
  | iframe
  | popup
deriving DecidableEq

/-- State of one ParentComponent instance, restricted to what the close
cluster touches.  The four c-fields are the memoization caches of the four
memoized methods (close caches its settled resolution, the reason it ran
with); the four r-fields count how many times each underlying body actually
executed; eventCloseFired/eventCloseCount model event.triggerOnce(EVENTS.CLOSE);
onCloseLog records every invocation of the props.onClose callback with the
reason it received; clean/executedTags model the Cleanup Registry. -/
structure Inst where
  ctx : CtxType := CtxType.iframe
  hasElement : Bool := false
  hasContainer : Bool := false
  hasChildExports : Bool := false
  cClose : Option CloseReason := none
  cCloseContainer : Bool := false
  cCloseComponent : Bool := false
  cDestroyContainer : Bool := false
  cHideContainer : Bool := false
  cHideComponent : Bool := false
  rClose : Nat := 0
  rCloseContainer : Nat := 0
  rCloseComponent : Nat := 0
  rDestroyContainer : Nat := 0
  eventCloseFired : Bool := false
  eventCloseCount : Nat := 0
  onCloseLog : List CloseReason := []
  clean : List CTag := []
  executedTags : List CTag := []
  nextAnon : Nat := 0
  allRuns : Nat := 0
  childCloseCalled : Bool := false
deriving DecidableEq

/-- event.triggerOnce(EVENTS.CLOSE): fires the CLOSE event listeners only the
first time it is invoked for this instance. -/
def triggerOnceClose (s : Inst) : Inst :=
  if s.eventCloseFired then s
  else { s with eventCloseFired := true, eventCloseCount := s.eventCloseCount + 1 }

/-- this.props.onClose(reason): record the invocation of the host-supplied
onClose callback together with the reason it received. -/
def onCloseProp (r : CloseReason) (s : Inst) : Inst :=
  { s with onCloseLog := s.onCloseLog ++ [r] }

/-- Modelled from the spec: clean.run(tag) of the Cleanup Registry (lib module
not in the provided sources): executes and removes the entries carrying the
tag, at most once per entry. -/
def cleanRun (t : CTag) (s : Inst) : Inst :=
  { s with clean := s.clean.filter (fun u => !(u == t)),
           executedTags := s.executedTags ++ s.clean.filter (fun u => u == t) }

/-- Modelled from the spec: clean.register of the Cleanup Registry. -/
def cleanRegister (t : CTag) (s : Inst) : Inst :=
  { s with clean := s.clean ++ [t] }

/-- destroy(): if the Cleanup Registry has tasks, run all of them in
registration order (clean.all()) and clear the registry; otherwise a no-op.
allRuns counts how many times the full registry actually ran. -/
def destroy (s : Inst) : Inst :=
  if s.clean.isEmpty then s
  else { s with clean := [], executedTags := s.executedTags ++ s.clean,
                allRuns := s.allRuns + 1 }

/-- cancelContainerEvents(): clean.run of the destroyContainerEvents tag. -/
def cancelContainerEvents (s : Inst) : Inst :=
  cleanRun CTag.containerEvents s

/-- destroyComponent(): runs the four tagged cleanup groups, in source order
(unload listener, close-window listener, container events, window). -/
def destroyComponent (s : Inst) : Inst :=
  cleanRun CTag.destroyWindowEntry
    (cleanRun CTag.containerEvents
      (cleanRun CTag.closeWindowListener
        (cleanRun CTag.unloadListener s)))

/-- hideComponent() (memoized): animates the element away when one exists;
the animation helper registers an anonymous cancel action in the registry. -/
def hideComponent (s : Inst) : Inst :=
  if s.cHideComponent then s
  else
    { s with cHideComponent := true,
             clean := s.clean ++ (if s.hasElement then [CTag.anon s.nextAnon] else []),
             nextAnon := s.nextAnon + 1 }

/-- hideContainer() (memoized): animates the container away when one exists;
the animation helper registers an anonymous cancel action in the registry. -/
def hideContainer (s : Inst) : Inst :=
  if s.cHideContainer then s
  else
    { s with cHideContainer := true,
             clean := s.clean ++ (if s.hasContainer then [CTag.anon s.nextAnon] else []),
             nextAnon := s.nextAnon + 1 }

/-- closeComponent(reason = PARENT_CALL) (memoized; the memoized decorator is
modelled from the spec as the run-once combinator, since it comes from an
external helper library): cancel container events, trigger the CLOSE event
once, invoke props.onClose(reason), hide and destroy the component, and for a
popup with child exports ask the child window to close itself. -/
def closeComponent (r? : Option CloseReason) (s : Inst) : Inst :=
  if s.cCloseComponent then s
  else
    let r := r?.getD CloseReason.parentCall
    let s1 := { s with cCloseComponent := true, rCloseComponent := s.rCloseComponent + 1 }
    let s2 := cancelContainerEvents s1
    let s3 := triggerOnceClose s2
    let s4 := onCloseProp r s3
    let s5 := hideComponent s4
    let s6 := destroyComponent s5
    { s6 with childCloseCalled :=
        s6.childCloseCalled || (s6.hasChildExports && (s6.ctx == CtxType.popup)) }

/-- destroyContainer() (memoized): clean.run of the container events and
container template tags. -/
def destroyContainer (s : Inst) : Inst :=
  if s.cDestroyContainer then s
  else
    let s1 := { s with cDestroyContainer := true, rDestroyContainer := s.rDestroyContainer + 1 }
    cleanRun CTag.containerTemplate (cleanRun CTag.containerEvents s1)

/-- closeContainer(reason = PARENT_CALL) (memoized): trigger the CLOSE event
once, invoke props.onClose(reason), run closeComponent(reason) and
hideContainer in parallel, then destroyContainer. -/
def closeContainer (r? : Option CloseReason) (s : Inst) : Inst :=
  if s.cCloseContainer then s
  else
    let r := r?.getD CloseReason.parentCall
    let s1 := { s with cCloseContainer := true, rCloseContainer := s.rCloseContainer + 1 }
    let s2 := triggerOnceClose s1
    let s3 := onCloseProp r s2
    let s4 := closeComponent (some r) s3
    let s5 := hideContainer s4
    destroyContainer s5

/-- close(reason = PARENT_CALL) (memoized): trigger the CLOSE event once,
invoke props.onClose(reason), run closeComponent() and closeContainer() (both
without an argument, hence with their own PARENT_CALL default) in parallel,
then run full destroy.  Returns the settled outcome of the memoized promise:
the reason the single underlying run used. -/
def close (r? : Option CloseReason) (s : Inst) : Inst × CloseReason :=
  match s.cClose with
  | some r => (s, r)
  | none =>
    let r := r?.getD CloseReason.parentCall
    let s1 := { s with cClose := some r, rClose := s.rClose + 1 }
    let s2 := triggerOnceClose s1
    let s3 := onCloseProp r s2
    let s4 := closeComponent none s3
    let s5 := closeContainer none s4
    (destroy s5, r)

/-- userClose(): close with the USER_CLOSED reason. -/
def userClose (s : Inst) : Inst × CloseReason :=
  close (some CloseReason.userClosed) s

/-- The close action handed to the container template by renderTemplate
(actions.close): it invokes userClose. -/
def templateCloseAction (s : Inst) : Inst × CloseReason :=
  userClose s

/-- One external invocation of one of the four memoized close-cluster
methods, with the optional reason argument it was given. -/
inductive LCall
  | close (r? : Option CloseReason)
  | closeContainer (r? : Option CloseReason)
  | closeComponent (r? : Option CloseReason)
  | destroyContainer
deriving DecidableEq

/-- Run a sequence of invocations of the four memoized methods against an
instance, collecting the outcome each close() call resolved to. -/
def runCalls (cs : List LCall) (s : Inst) (outs : List CloseReason) :
    Inst × List CloseReason :=
  match cs with
  | [] => (s, outs)
  | c :: rest =>
    match c with
    | LCall.close r? =>
      let p := close r? s
      runCalls rest p.1 (outs ++ [p.2])
    | LCall.closeContainer r? => runCalls rest (closeContainer r? s) outs
    | LCall.closeComponent r? => runCalls rest (closeComponent r? s) outs
    | LCall.destroyContainer => runCalls rest (destroyContainer s) outs

/-- A freshly constructed, not yet closed instance: no memoization cache is
filled, no body has run, the CLOSE event has not fired, onClose has never
been invoked, and the registry has never been drained. -/
def Fresh (s : Inst) : Prop :=
  s.cClose = none ∧ s.cCloseContainer = false ∧ s.cCloseComponent = false
  ∧ s.cDestroyContainer = false
  ∧ s.rClose = 0 ∧ s.rCloseContainer = 0 ∧ s.rCloseComponent = 0
  ∧ s.rDestroyContainer = 0
  ∧ s.eventCloseFired = false ∧ s.eventCloseCount = 0
  ∧ s.onCloseLog = [] ∧ s.allRuns = 0

/-- The cleanup registry holds at least one anonymous entry (every real
instance has one: the constructor registers the active-component removal). -/
def anonIn (s : Inst) : Prop :=
  ∃ k, CTag.anon k ∈ s.clean

/-- The environment of one checkClose call: current time, at which times the
proxy window reports isClosed, the instance state, and the times at which a
user-close was triggered. -/
structure World where
  now : Nat
  winClosedAt : Nat → Bool
  inst : Inst
  userCloses : List Nat

/-- ZalgoPromise.delay(ms): advance time. -/
def delay (ms : Nat) (w : World) : World :=
  { w with now := w.now + ms }

/-- proxyWin.isClosed() polled at the current time. -/
def isClosedW (w : World) : Bool :=
  w.winClosedAt w.now

/-- this.userClose() from inside checkClose: run close with USER_CLOSED on
the instance and record the trigger time. -/
def userCloseW (w : World) : World :=
  { w with inst := (userClose w.inst).1, userCloses := w.userCloses ++ [w.now] }

/-- checkClose(proxyWindow): poll isClosed immediately; if closed, user-close
at once; otherwise delay 200ms, poll again, and user-close exactly when the
second poll reports closed. -/
def checkClose (w : World) : World :=
  if isClosedW w then userCloseW w
  else
    let w2 := delay 200 w
    if isClosedW w2 then userCloseW w2 else w2

end Lifecycle

namespace ErrorModel

/-- Error identities (the mixed err values are opaque to the parent). -/
abbrev Err := Nat

/-- The value an errored promise chain settles with: either the original
error rethrown, or the wrapper combining the original error with the
secondary failure met while handling it. -/
inductive ErrVal
  | base (e : Err)
  | wrapped (orig : Err) (second : Err)
deriving DecidableEq

/-- Observable steps of one error(err, props) run, in execution order. -/
inductive EEvent
  | setErrored
  | rejectOnInit (e : Err)
  | runDestroy
  | callOnError (e : Err)
deriving DecidableEq

/-- How an error(err, props) call settles: the silent immediate return when
already errored, resolution after a successful onError, or rejection. -/
inductive EOutcome
  | noopReturn
  | resolved
  | rejected (v : ErrVal)
deriving DecidableEq

/-- Instance state relevant to error(): the errored flag, whether props
supplies onError, whether that callback itself throws (and with what),
whether destroy throws, and the trace of performed steps. -/
structure EInst where
  errored : Bool
  hasOnError : Bool
  onErrorThrows : Option Err
  destroyThrows : Option Err
  trace : List EEvent
deriving DecidableEq

/-- error(err, props): if already errored, return immediately; otherwise set
errored, reject the readiness (onInit) promise, run destroy, then call
props.onError(err) if supplied; a failure anywhere in that chain is wrapped
together with err and rethrown; if onError is absent the original err is
rethrown at the end. -/
def error (e : Err) (s : EInst) : EInst × EOutcome :=
  if s.errored then (s, EOutcome.noopReturn)
  else
    let s1 := { s with errored := true, trace := s.trace ++ [EEvent.setErrored] }
    let s2 := { s1 with trace := s1.trace ++ [EEvent.rejectOnInit e] }
    let s3 := { s2 with trace := s2.trace ++ [EEvent.runDestroy] }
    match s3.destroyThrows with
    | some d => (s3, EOutcome.rejected (ErrVal.wrapped e d))
    | none =>
      if s3.hasOnError then
        let s4 := { s3 with trace := s3.trace ++ [EEvent.callOnError e] }
        match s4.onErrorThrows with
        | some e2 => (s4, EOutcome.rejected (ErrVal.wrapped e e2))
        | none => (s4, EOutcome.resolved)
      else (s3, EOutcome.rejected (ErrVal.base e))

end ErrorModel

namespace RenderGraph

/-- The named tasks of the render dependency graph built by render(),
plus the onInit readiness signal that switchPrerender additionally awaits.
tasks.open is called openWindow here because open is a Lean keyword. -/
inductive RTask
  | onRender
  | getDomain
  | elementReady
  | openContainer
  | openWindow
  | awaitWindow
  | showContainer
  | setWindowName
  | watchForClose
  | prerender
  | showComponent
  | openBridge
  | buildUrl
  | loadUrl
  | switchPrerender
  | runTimeout
  | onInitSignal
deriving DecidableEq

/-- Every task of the graph. -/
def allTasks : List RTask :=
  [RTask.onRender, RTask.getDomain, RTask.elementReady, RTask.openContainer,
   RTask.openWindow, RTask.awaitWindow, RTask.showContainer, RTask.setWindowName,
   RTask.watchForClose, RTask.prerender, RTask.showComponent, RTask.openBridge,
   RTask.buildUrl, RTask.loadUrl, RTask.switchPrerender, RTask.runTimeout,
   RTask.onInitSignal]

instance : Fintype RTask :=
  Fintype.ofList allTasks (by intro x; cases x <;> simp [allTasks])

/-- The dependency edges of the render graph, transcribed from the
ZalgoPromise chains of render(): each task starts from a .then on the listed
tasks.  renderedIntoContainer is the driver flag deciding whether open waits
for openContainer. -/
def deps (renderedIntoContainer : Bool) : RTask → List RTask
  | RTask.onRender => []
  | RTask.getDomain => []
  | RTask.elementReady => []
  | RTask.openContainer => [RTask.elementReady]
  | RTask.openWindow => if renderedIntoContainer then [RTask.openContainer] else []
  | RTask.awaitWindow => [RTask.openWindow]
  | RTask.showContainer => [RTask.openContainer]
  | RTask.setWindowName => [RTask.openWindow, RTask.getDomain]
  | RTask.watchForClose => [RTask.awaitWindow, RTask.setWindowName]
  | RTask.prerender => [RTask.openWindow, RTask.openContainer]
  | RTask.showComponent => [RTask.prerender]
  | RTask.openBridge => [RTask.awaitWindow, RTask.getDomain, RTask.setWindowName]
  | RTask.buildUrl => []
  | RTask.loadUrl => [RTask.openWindow, RTask.buildUrl, RTask.setWindowName]
  | RTask.switchPrerender => [RTask.prerender, RTask.onInitSignal]
  | RTask.runTimeout => [RTask.loadUrl]
  | RTask.onInitSignal => []

/-- An execution of the render graph assigns each task a start and a finish
instant; it is valid when no task starts before every one of its
dependencies has resolved (the semantics of ZalgoPromise.all(...).then). -/
def ValidExec (renderedIntoContainer : Bool) (start finish : RTask → Nat) : Prop :=
  ∀ t : RTask, start t ≤ finish t ∧
    ∀ d ∈ deps renderedIntoContainer t, finish d ≤ start t

/-- A concrete schedule resolving the tasks in one topological order. -/
def startW : RTask → Nat
  | RTask.onRender => 0
  | RTask.getDomain => 1
  | RTask.elementReady => 2
  | RTask.buildUrl => 3
  | RTask.onInitSignal => 4
  | RTask.openContainer => 5
  | RTask.openWindow => 6
  | RTask.awaitWindow => 7
  | RTask.showContainer => 8
  | RTask.setWindowName => 9
  | RTask.watchForClose => 10
  | RTask.prerender => 11
  | RTask.showComponent => 12
  | RTask.openBridge => 13
  | RTask.loadUrl => 14
  | RTask.switchPrerender => 15
  | RTask.runTimeout => 16

end RenderGraph

namespace Bootstrap

/-- componentParent references (WINDOW_REFERENCES; constants module not in
the provided sources): how the child reaches its logical parent window. -/
inductive WinRef
  | opener
  | top
  | parent (distance : Nat)
  | globalRef (uid : Nat)
deriving DecidableEq

/-- The props field of the child window name: serialized props inlined (RAW)
for a same-domain target, or a reference by uid (UID) into the global props
registry otherwise. -/
inductive PropsRef
  | raw (value : Nat)
  | byUid (uid : Nat)
deriving DecidableEq

/-- A cleanup action registered during bootstrap encoding: delete the props
registry entry, delete the windows registry entry, or an unrelated action. -/
inductive CAction
  | deletePropsEntry (uid : Nat)
  | deleteWindowsEntry (uid : Nat)
  | other (n : Nat)
deriving DecidableEq

/-- Modelled from the spec: the two process-wide Global Registries
(global.props and global.windows of the lib module, which is not among the
provided sources): association lists from bootstrap uid to the serialized
props blob and to the window reference. -/
structure Globals where
  propsReg : List (Nat × Nat)
  windowsReg : List (Nat × Nat)
deriving DecidableEq

/-- Execute one cleanup action against the global registries
(delete global.props[uid] / delete global.windows[uid]). -/
def runAction (g : Globals) (a : CAction) : Globals :=
  match a with
  | CAction.deletePropsEntry u =>
    { g with propsReg := g.propsReg.filter (fun p => !(p.1 == u)) }
  | CAction.deleteWindowsEntry u =>
    { g with windowsReg := g.windowsReg.filter (fun p => !(p.1 == u)) }
  | CAction.other _ => g

/-- Instance state for the bootstrap path: its own cleanup registry (as the
ordered list of registered actions) and the shared global registries. -/
structure BInst where
  clean : List CAction
  globals : Globals
deriving DecidableEq

/-- Look a uid up in a registry (first entry with that key). -/
def lookupUid (u : Nat) (l : List (Nat × Nat)) : Option Nat :=
  (l.find? (fun p => p.1 == u)).map (fun p => p.2)

/-- The inputs of getComponentParentRef: render context, whether the render
target is this very window, whether this window is top, its distance from
top, and the identity of the current window. -/
structure ParentRefArgs where
  ctx : Lifecycle.CtxType
  renderToSelf : Bool
  isTopWindow : Bool
  distanceFromTop : Nat
  curWindow : Nat
deriving DecidableEq

/-- getComponentParentRef(renderToWindow): opener for popups; top or
parent+distance when rendering into this window; otherwise register the
current window in the global windows registry under a fresh uid, pair it
with a delete in the cleanup registry, and reference it by uid. -/
def getComponentParentRef (a : ParentRefArgs) (uidW : Nat) (s : BInst) :
    WinRef × BInst :=
  if a.ctx = Lifecycle.CtxType.popup then (WinRef.opener, s)
  else if a.renderToSelf then
    if a.isTopWindow then (WinRef.top, s)
    else (WinRef.parent a.distanceFromTop, s)
  else
    (WinRef.globalRef uidW,
      { s with
          globals := { s.globals with
            windowsReg := s.globals.windowsReg ++ [(uidW, a.curWindow)] },
          clean := s.clean ++ [CAction.deleteWindowsEntry uidW] })

/-- The handshake payload carried by the child window name (the fields the
parent source computes; the final string encoding lives in the window
module, outside the provided sources). -/
structure ChildWindowName where
  uid : Nat
  componentParent : WinRef
  propsField : PropsRef
deriving DecidableEq

/-- buildChildWindowName: compute the parent reference (possibly registering
the current window), then inline the serialized props for a same-domain
target, or register them in the global props registry under the generated
uid, pair that with a delete in the cleanup registry, and reference them by
uid. -/
def buildChildWindowName (a : ParentRefArgs) (targetSameDomain : Bool)
    (uid uidW sProps : Nat) (s : BInst) : ChildWindowName × BInst :=
  let pr := getComponentParentRef a uidW s
  let componentParent := pr.1
  let s1 := pr.2
  if targetSameDomain then
    ({ uid := uid, componentParent := componentParent,
       propsField := PropsRef.raw sProps }, s1)
  else
    ({ uid := uid, componentParent := componentParent,
       propsField := PropsRef.byUid uid },
     { s1 with
         globals := { s1.globals with
           propsReg := s1.globals.propsReg ++ [(uid, sProps)] },
         clean := s1.clean ++ [CAction.deletePropsEntry uid] })

/-- destroy(): drain the cleanup registry, executing every registered action
in registration order against the global registries. -/
def destroy (s : BInst) : BInst :=
  if s.clean.isEmpty then s
  else { clean := [], globals := s.clean.foldl runAction s.globals }

end Bootstrap

namespace RemoteRender

/-- The errors renderTo / checkAllowRemoteRender can throw, with the data
their messages carry. -/
inductive RTErr
  | mustPassWindow
  | notAdjacentFrame
  | elementNotString
  | noDomain
  | remoteDomainMismatch (domain origin : String)
deriving DecidableEq

/-- The leading part of the cross-origin mismatch error message. -/
def msgPre : String := "Can not render remotely to "

/-- The middle part of the cross-origin mismatch error message. -/
def msgMid : String := " - can only render to "

/-- The empty string. -/
def emptyStr : String := ""

/-- The message string of each error, as built in the source. -/
def errorMessage : RTErr → String
  | RTErr.mustPassWindow => "Must pass window to renderTo"
  | RTErr.notAdjacentFrame => "Can only renderTo an adjacent frame"
  | RTErr.elementNotString => "Element passed to renderTo must be a string selector"
  | RTErr.noDomain => "Could not determine domain to allow remote render"
  | RTErr.remoteDomainMismatch d o => msgPre ++ d ++ msgMid ++ o

/-- The element argument renderTo received: absent, a string selector, or a
value of any other type. -/
inductive ElemArg
  | noElement
  | selector (s : String)
  | nonString
deriving DecidableEq

/-- The environment of one renderTo call: the facts about the target window
and domains the guards consult.  domainMatchesOrigin is the verdict of the
external matchDomain helper on (resolvedDomain, origin). -/
structure RenderToEnv where
  targetIsSelf : Bool
  targetExists : Bool
  sameTopWindow : Bool
  targetSameDomain : Bool
  origin : String
  resolvedDomain : Option String
  domainMatchesOrigin : Bool
  element : ElemArg

/-- checkAllowRemoteRender(target): no target, not the same top-level
browsing context, or (cross-origin) an unresolvable or non-matching
component domain each throw; same-domain targets and matching domains
pass. -/
def checkAllowRemoteRender (e : RenderToEnv) : Option RTErr :=
  if !e.targetExists then some RTErr.mustPassWindow
  else if !e.sameTopWindow then some RTErr.notAdjacentFrame
  else if e.targetSameDomain then none
  else
    match e.resolvedDomain with
    | none => some RTErr.noDomain
    | some d =>
      if e.domainMatchesOrigin then none
      else some (RTErr.remoteDomainMismatch d e.origin)

/-- The side effects renderTo can perform after its guards pass. -/
inductive RenderAction
  | delegateToTarget
  | runRender
deriving DecidableEq

/-- renderTo(target, element): render directly when the target is this
window; otherwise validate the element argument, run
checkAllowRemoteRender, and only then delegate and render.  Returns the
actions actually performed and the error thrown, if any: on an error no
action has been performed, so no window has been opened. -/
def renderTo (e : RenderToEnv) : List RenderAction × Option RTErr :=
  if e.targetIsSelf then ([RenderAction.runRender], none)
  else if e.element == ElemArg.nonString then ([], some RTErr.elementNotString)
  else
    match checkAllowRemoteRender e with
    | some err => ([], some err)
    | none => ([RenderAction.delegateToTarget, RenderAction.runRender], none)

end RemoteRender

namespace ResizeModel

/-- Observable steps of one resize call, in execution order; the promise
resolves once the whole list has run. -/
inductive RsEvent
  | driverResize (width height : Option Nat)
  | setOverflowHidden
  | waitElementStoppedMoving
  | resetOverflow
deriving DecidableEq

/-- resize(width, height, options): delegate to the driver resize; when
waitForTransition (default true) and an element exists, set its overflow to
hidden, suspend until the element-stopped-moving watcher fires, then restore
the overflow; otherwise resolve immediately after the driver resize. -/
def resize (width height : Option Nat) (waitForTransition? : Option Bool)
    (hasElement : Bool) : List RsEvent :=
  let waitForTransition := waitForTransition?.getD true
  let t := [RsEvent.driverResize width height]
  if !waitForTransition then t
  else if hasElement then
    t ++ [RsEvent.setOverflowHidden, RsEvent.waitElementStoppedMoving,
          RsEvent.resetOverflow]
  else t

end ResizeModel

namespace OutletModel

/-- Modelled from the spec: CLASS_NAMES.OUTLET (constants module not in the
provided sources); the concrete class string is immaterial to the claims. -/
def outletClass : String := "zoid-outlet"

/-- A DOM element created by the model: identity, tag name and classes. -/
structure Elem where
  id : Nat
  tag : String
  classes : List String
deriving DecidableEq

/-- Instance state of getOutlet: its memoization cache, every element the
instance ever created, and a fresh-id counter. -/
structure OutletSt where
  outletCache : Option Elem
  created : List Elem
  nextId : Nat
deriving DecidableEq

/-- getOutlet() (memoized): on the first call create a div, add the outlet
class and cache it; afterwards return the cached element unchanged. -/
def getOutlet (s : OutletSt) : Elem × OutletSt :=
  match s.outletCache with
  | some el => (el, s)
  | none =>
    let el : Elem := { id := s.nextId, tag := "div", classes := [outletClass] }
    (el, { outletCache := some el, created := s.created ++ [el],
           nextId := s.nextId + 1 })

end OutletModel

namespace Lifecycle

/-- The reachability invariant of the close cluster: the body-run counters
are in lockstep with the memoization caches, a filled close cache implies
the two sub-closes also ran, a filled closeContainer cache implies
closeComponent and destroyContainer ran, the onClose invocation count equals
the number of the three onClose-invoking bodies that ran, the CLOSE event
fired exactly when at least one of them ran, the full registry drained
exactly when close ran, and an anonymous registry entry survives until it
does. -/
structure InvP (s : Inst) : Prop where
  hrClose : s.rClose = s.cClose.isSome.toNat
  hrCont : s.rCloseContainer = s.cCloseContainer.toNat
  hrComp : s.rCloseComponent = s.cCloseComponent.toNat
  hrDest : s.rDestroyContainer = s.cDestroyContainer.toNat
  hCloseCont : s.cClose.isSome = true → s.cCloseContainer = true
  hCloseComp : s.cClose.isSome = true → s.cCloseComponent = true
  hContComp : s.cCloseContainer = true → s.cCloseComponent = true
  hContDest : s.cCloseContainer = true → s.cDestroyContainer = true
  hLog : s.onCloseLog.length =
    s.cClose.isSome.toNat + s.cCloseContainer.toNat + s.cCloseComponent.toNat
  hEvF : s.eventCloseFired = (s.cClose.isSome || s.cCloseContainer || s.cCloseComponent)
  hEvC : s.eventCloseCount = s.eventCloseFired.toNat
  hAll : s.allRuns = s.cClose.isSome.toNat
  hAnon : s.cClose = none → anonIn s

/-- Every collected close() outcome equals the cached resolution. -/
def OutsOk (s : Inst) (outs : List CloseReason) : Prop :=
  ∀ o ∈ outs, s.cClose = some o

end Lifecycle

/-- A representative rendered instance: element and container exist, the
constructor registered an anonymous entry and the tagged watchers. -/
def instEx : Lifecycle.Inst :=
  { hasElement := true, hasContainer := true,
    clean := [Lifecycle.CTag.anon 0, Lifecycle.CTag.unloadListener,
              Lifecycle.CTag.closeWindowListener, Lifecycle.CTag.containerTemplate,
              Lifecycle.CTag.destroyWindowEntry],
    nextAnon := 1 }

/-- A proxy window reporting not-closed at the immediate check and closed
from 200ms on. -/
def worldEx : Lifecycle.World :=
  { now := 0, winClosedAt := fun t => decide (200 ≤ t), inst := instEx,
    userCloses := [] }

/-- A proxy window that is already closed at the immediate check. -/
def worldClosedNow : Lifecycle.World :=
  { now := 0, winClosedAt := fun _ => true, inst := instEx, userCloses := [] }

/-- A representative sequence of invocations: a host close, a redundant
closeComponent and a second close with a different reason. -/
def callsEx : List Lifecycle.LCall :=
  [Lifecycle.LCall.close none, Lifecycle.LCall.closeComponent none,
   Lifecycle.LCall.close (some Lifecycle.CloseReason.userClosed)]

/-- A not-yet-errored instance whose onError callback itself throws. -/
def errInstW : ErrorModel.EInst :=
  { errored := false, hasOnError := true, onErrorThrows := some 7,
    destroyThrows := none, trace := [] }

/-- A fresh instance state for getOutlet. -/
def outletFresh : OutletModel.OutletSt :=
  { outletCache := none, created := [], nextId := 0 }

/-- A resolved component domain for the remote-render witness. -/
def domainEx : String := "https://component.example.com"

/-- The current origin for the remote-render witness. -/
def originEx : String := "https://host.example.com"

/-- A renderTo environment whose target is not under the same top-level
browsing context. -/
def renderToEnvAdj : RemoteRender.RenderToEnv :=
  { targetIsSelf := false, targetExists := true, sameTopWindow := false,
    targetSameDomain := false, origin := originEx, resolvedDomain := none,
    domainMatchesOrigin := false, element := RemoteRender.ElemArg.noElement }

/-- A renderTo environment with a cross-origin target whose resolved
component domain does not match the current origin. -/
def renderToEnvMismatch : RemoteRender.RenderToEnv :=
  { targetIsSelf := false, targetExists := true, sameTopWindow := true,
    targetSameDomain := false, origin := originEx,
    resolvedDomain := some domainEx, domainMatchesOrigin := false,
    element := RemoteRender.ElemArg.noElement }

/-- Bootstrap arguments for a render into a different, non-top window. -/
def prArgsEx : Bootstrap.ParentRefArgs :=
  { ctx := Lifecycle.CtxType.iframe, renderToSelf := false,
    isTopWindow := false, distanceFromTop := 1, curWindow := 42 }

/-- A bootstrap instance with empty registries and one unrelated cleanup
action already registered. -/
def bInstEx : Bootstrap.BInst :=
  { clean := [Bootstrap.CAction.other 0],
    globals := { propsReg := [], windowsReg := [] } }

/-- A schedule where every task starts and finishes at its startW instant. -/
def finishW : RenderGraph.RTask → Nat := RenderGraph.startW

/-! ## Lemmas about the close cluster -/

namespace Lifecycle

@[simp]
theorem triggerOnceClose_proj (s : Inst) :
    (triggerOnceClose s).ctx = s.ctx
    ∧ (triggerOnceClose s).hasElement = s.hasElement
    ∧ (triggerOnceClose s).hasContainer = s.hasContainer
    ∧ (triggerOnceClose s).hasChildExports = s.hasChildExports
    ∧ (triggerOnceClose s).cClose = s.cClose
    ∧ (triggerOnceClose s).cCloseContainer = s.cCloseContainer
    ∧ (triggerOnceClose s).cCloseComponent = s.cCloseComponent
    ∧ (triggerOnceClose s).cDestroyContainer = s.cDestroyContainer
    ∧ (triggerOnceClose s).cHideContainer = s.cHideContainer
    ∧ (triggerOnceClose s).cHideComponent = s.cHideComponent
    ∧ (triggerOnceClose s).rClose = s.rClose
    ∧ (triggerOnceClose s).rCloseContainer = s.rCloseContainer
    ∧ (triggerOnceClose s).rCloseComponent = s.rCloseComponent
    ∧ (triggerOnceClose s).rDestroyContainer = s.rDestroyContainer
    ∧ (triggerOnceClose s).onCloseLog = s.onCloseLog
    ∧ (triggerOnceClose s).clean = s.clean
    ∧ (triggerOnceClose s).nextAnon = s.nextAnon
    ∧ (triggerOnceClose s).allRuns = s.allRuns := by
  unfold triggerOnceClose
  split <;> simp

@[simp]
theorem triggerOnceClose_eventFired (s : Inst) :
    (triggerOnceClose s).eventCloseFired = true := by
  unfold triggerOnceClose
  split <;> simp_all

@[simp]
theorem triggerOnceClose_eventCount (s : Inst) :
    (triggerOnceClose s).eventCloseCount =
      if s.eventCloseFired then s.eventCloseCount else s.eventCloseCount + 1 := by
  unfold triggerOnceClose
  split <;> simp_all

@[simp]
theorem onCloseProp_proj (r : CloseReason) (s : Inst) :
    (onCloseProp r s).ctx = s.ctx
    ∧ (onCloseProp r s).hasElement = s.hasElement
    ∧ (onCloseProp r s).hasContainer = s.hasContainer
    ∧ (onCloseProp r s).hasChildExports = s.hasChildExports
    ∧ (onCloseProp r s).cClose = s.cClose
    ∧ (onCloseProp r s).cCloseContainer = s.cCloseContainer
    ∧ (onCloseProp r s).cCloseComponent = s.cCloseComponent
    ∧ (onCloseProp r s).cDestroyContainer = s.cDestroyContainer
    ∧ (onCloseProp r s).cHideContainer = s.cHideContainer
    ∧ (onCloseProp r s).cHideComponent = s.cHideComponent
    ∧ (onCloseProp r s).rClose = s.rClose
    ∧ (onCloseProp r s).rCloseContainer = s.rCloseContainer
    ∧ (onCloseProp r s).rCloseComponent = s.rCloseComponent
    ∧ (onCloseProp r s).rDestroyContainer = s.rDestroyContainer
    ∧ (onCloseProp r s).eventCloseFired = s.eventCloseFired
    ∧ (onCloseProp r s).eventCloseCount = s.eventCloseCount
    ∧ (onCloseProp r s).clean = s.clean
    ∧ (onCloseProp r s).nextAnon = s.nextAnon
    ∧ (onCloseProp r s).allRuns = s.allRuns := by
  unfold onCloseProp
  simp

@[simp]
theorem onCloseProp_log (r : CloseReason) (s : Inst) :
    (onCloseProp r s).onCloseLog = s.onCloseLog ++ [r] := rfl

@[simp]
theorem cleanRun_proj (t : CTag) (s : Inst) :
    (cleanRun t s).ctx = s.ctx
    ∧ (cleanRun t s).hasElement = s.hasElement
    ∧ (cleanRun t s).hasContainer = s.hasContainer
    ∧ (cleanRun t s).hasChildExports = s.hasChildExports
    ∧ (cleanRun t s).cClose = s.cClose
    ∧ (cleanRun t s).cCloseContainer = s.cCloseContainer
    ∧ (cleanRun t s).cCloseComponent = s.cCloseComponent
    ∧ (cleanRun t s).cDestroyContainer = s.cDestroyContainer
    ∧ (cleanRun t s).cHideContainer = s.cHideContainer
    ∧ (cleanRun t s).cHideComponent = s.cHideComponent
    ∧ (cleanRun t s).rClose = s.rClose
    ∧ (cleanRun t s).rCloseContainer = s.rCloseContainer
    ∧ (cleanRun t s).rCloseComponent = s.rCloseComponent
    ∧ (cleanRun t s).rDestroyContainer = s.rDestroyContainer
    ∧ (cleanRun t s).onCloseLog = s.onCloseLog
    ∧ (cleanRun t s).eventCloseFired = s.eventCloseFired
    ∧ (cleanRun t s).eventCloseCount = s.eventCloseCount
    ∧ (cleanRun t s).nextAnon = s.nextAnon
    ∧ (cleanRun t s).allRuns = s.allRuns := by
  unfold cleanRun
  simp

@[simp]
theorem hideComponent_proj (s : Inst) :
    (hideComponent s).ctx = s.ctx
    ∧ (hideComponent s).hasElement = s.hasElement
    ∧ (hideComponent s).hasContainer = s.hasContainer
    ∧ (hideComponent s).hasChildExports = s.hasChildExports
    ∧ (hideComponent s).cClose = s.cClose
    ∧ (hideComponent s).cCloseContainer = s.cCloseContainer
    ∧ (hideComponent s).cCloseComponent = s.cCloseComponent
    ∧ (hideComponent s).cDestroyContainer = s.cDestroyContainer
    ∧ (hideComponent s).rClose = s.rClose
    ∧ (hideComponent s).rCloseContainer = s.rCloseContainer
    ∧ (hideComponent s).rCloseComponent = s.rCloseComponent
    ∧ (hideComponent s).rDestroyContainer = s.rDestroyContainer
    ∧ (hideComponent s).onCloseLog = s.onCloseLog
    ∧ (hideComponent s).eventCloseFired = s.eventCloseFired
    ∧ (hideComponent s).eventCloseCount = s.eventCloseCount
    ∧ (hideComponent s).allRuns = s.allRuns := by
  unfold hideComponent
  split <;> simp

@[simp]
theorem hideContainer_proj (s : Inst) :
    (hideContainer s).ctx = s.ctx
    ∧ (hideContainer s).hasElement = s.hasElement
    ∧ (hideContainer s).hasContainer = s.hasContainer
    ∧ (hideContainer s).hasChildExports = s.hasChildExports
    ∧ (hideContainer s).cClose = s.cClose
    ∧ (hideContainer s).cCloseContainer = s.cCloseContainer
    ∧ (hideContainer s).cCloseComponent = s.cCloseComponent
    ∧ (hideContainer s).cDestroyContainer = s.cDestroyContainer
    ∧ (hideContainer s).rClose = s.rClose
    ∧ (hideContainer s).rCloseContainer = s.rCloseContainer
    ∧ (hideContainer s).rCloseComponent = s.rCloseComponent
    ∧ (hideContainer s).rDestroyContainer = s.rDestroyContainer
    ∧ (hideContainer s).onCloseLog = s.onCloseLog
    ∧ (hideContainer s).eventCloseFired = s.eventCloseFired
    ∧ (hideContainer s).eventCloseCount = s.eventCloseCount
    ∧ (hideContainer s).allRuns = s.allRuns := by
  unfold hideContainer
  split <;> simp

@[simp]
theorem destroy_proj (s : Inst) :
    (destroy s).ctx = s.ctx
    ∧ (destroy s).hasElement = s.hasElement
    ∧ (destroy s).hasContainer = s.hasContainer
    ∧ (destroy s).hasChildExports = s.hasChildExports
    ∧ (destroy s).cClose = s.cClose
    ∧ (destroy s).cCloseContainer = s.cCloseContainer
    ∧ (destroy s).cCloseComponent = s.cCloseComponent
    ∧ (destroy s).cDestroyContainer = s.cDestroyContainer
    ∧ (destroy s).cHideContainer = s.cHideContainer
    ∧ (destroy s).cHideComponent = s.cHideComponent
    ∧ (destroy s).rClose = s.rClose
    ∧ (destroy s).rCloseContainer = s.rCloseContainer
    ∧ (destroy s).rCloseComponent = s.rCloseComponent
    ∧ (destroy s).rDestroyContainer = s.rDestroyContainer
    ∧ (destroy s).onCloseLog = s.onCloseLog
    ∧ (destroy s).eventCloseFired = s.eventCloseFired
    ∧ (destroy s).eventCloseCount = s.eventCloseCount := by
  unfold destroy
  split <;> simp

theorem destroy_run (s : Inst) (h : s.clean ≠ []) :
    (destroy s).clean = [] ∧ (destroy s).allRuns = s.allRuns + 1 := by
  unfold destroy
  rw [if_neg (by simpa using h)]
  simp

theorem anonIn_triggerOnce (s : Inst) (h : anonIn s) : anonIn (triggerOnceClose s) := by
  obtain ⟨k, hk⟩ := h
  exact ⟨k, by simp [hk]⟩

theorem anonIn_onCloseProp (r : CloseReason) (s : Inst) (h : anonIn s) :
    anonIn (onCloseProp r s) := by
  obtain ⟨k, hk⟩ := h
  exact ⟨k, by simp [hk]⟩

theorem anonIn_cleanRun_named (t : CTag) (s : Inst) (ht : ∀ k, t ≠ CTag.anon k)
    (h : anonIn s) : anonIn (cleanRun t s) := by
  obtain ⟨k, hk⟩ := h
  refine ⟨k, ?_⟩
  simp only [cleanRun, List.mem_filter]
  refine ⟨hk, ?_⟩
  simpa using fun hEq => ht k hEq.symm

theorem anonIn_hideComponent (s : Inst) (h : anonIn s) : anonIn (hideComponent s) := by
  obtain ⟨k, hk⟩ := h
  unfold hideComponent
  split
  · exact ⟨k, hk⟩
  · exact ⟨k, by simp [hk]⟩

theorem anonIn_hideContainer (s : Inst) (h : anonIn s) : anonIn (hideContainer s) := by
  obtain ⟨k, hk⟩ := h
  unfold hideContainer
  split
  · exact ⟨k, hk⟩
  · exact ⟨k, by simp [hk]⟩

theorem anonIn_cancelContainerEvents (s : Inst) (h : anonIn s) :
    anonIn (cancelContainerEvents s) :=
  anonIn_cleanRun_named _ _ (fun _ hEq => nomatch hEq) h

theorem anonIn_destroyComponent (s : Inst) (h : anonIn s) :
    anonIn (destroyComponent s) := by
  unfold destroyComponent
  exact anonIn_cleanRun_named _ _ (fun _ hEq => nomatch hEq)
    (anonIn_cleanRun_named _ _ (fun _ hEq => nomatch hEq)
      (anonIn_cleanRun_named _ _ (fun _ hEq => nomatch hEq)
        (anonIn_cleanRun_named _ _ (fun _ hEq => nomatch hEq) h)))

theorem anonIn_closeComponent (r? : Option CloseReason) (s : Inst) (h : anonIn s) :
    anonIn (closeComponent r? s) := by
  unfold closeComponent
  split
  · exact h
  · exact anonIn_destroyComponent _
      (anonIn_hideComponent _
        (anonIn_onCloseProp _ _
          (anonIn_triggerOnce _
            (anonIn_cancelContainerEvents _ h))))

theorem anonIn_destroyContainer (s : Inst) (h : anonIn s) :
    anonIn (destroyContainer s) := by
  unfold destroyContainer
  split
  · exact h
  · exact anonIn_cleanRun_named _ _ (fun _ hEq => nomatch hEq)
      (anonIn_cleanRun_named _ _ (fun _ hEq => nomatch hEq) h)

theorem anonIn_closeContainer (r? : Option CloseReason) (s : Inst) (h : anonIn s) :
    anonIn (closeContainer r? s) := by
  unfold closeContainer
  split
  · exact h
  · exact anonIn_destroyContainer _
      (anonIn_hideContainer _
        (anonIn_closeComponent _ _
          (anonIn_onCloseProp _ _
            (anonIn_triggerOnce _ h))))

@[simp]
theorem closeComponent_noop (r? : Option CloseReason) (s : Inst)
    (h : s.cCloseComponent = true) : closeComponent r? s = s := by
  unfold closeComponent
  simp [h]

theorem closeComponent_run (r? : Option CloseReason) (s : Inst)
    (h : s.cCloseComponent = false) :
    (closeComponent r? s).cClose = s.cClose
    ∧ (closeComponent r? s).cCloseContainer = s.cCloseContainer
    ∧ (closeComponent r? s).cCloseComponent = true
    ∧ (closeComponent r? s).cDestroyContainer = s.cDestroyContainer
    ∧ (closeComponent r? s).rClose = s.rClose
    ∧ (closeComponent r? s).rCloseContainer = s.rCloseContainer
    ∧ (closeComponent r? s).rCloseComponent = s.rCloseComponent + 1
    ∧ (closeComponent r? s).rDestroyContainer = s.rDestroyContainer
    ∧ (closeComponent r? s).onCloseLog =
        s.onCloseLog ++ [r?.getD CloseReason.parentCall]
    ∧ (closeComponent r? s).eventCloseFired = true
    ∧ (closeComponent r? s).eventCloseCount =
        (if s.eventCloseFired then s.eventCloseCount else s.eventCloseCount + 1)
    ∧ (closeComponent r? s).allRuns = s.allRuns := by
  unfold closeComponent cancelContainerEvents destroyComponent
  simp [h]

@[simp]
theorem closeComponent_preserves (r? : Option CloseReason) (s : Inst) :
    (closeComponent r? s).cClose = s.cClose
    ∧ (closeComponent r? s).cCloseContainer = s.cCloseContainer
    ∧ (closeComponent r? s).cDestroyContainer = s.cDestroyContainer
    ∧ (closeComponent r? s).rClose = s.rClose
    ∧ (closeComponent r? s).rCloseContainer = s.rCloseContainer
    ∧ (closeComponent r? s).rDestroyContainer = s.rDestroyContainer
    ∧ (closeComponent r? s).allRuns = s.allRuns
    ∧ (closeComponent r? s).hasContainer = s.hasContainer := by
  by_cases h : s.cCloseComponent
  · simp [h]
  · have hr := closeComponent_run r? s (by simpa using h)
    exact ⟨hr.1, hr.2.1, hr.2.2.2.1, hr.2.2.2.2.1, hr.2.2.2.2.2.1,
      hr.2.2.2.2.2.2.2.1, hr.2.2.2.2.2.2.2.2.2.2.2,
      by unfold closeComponent cancelContainerEvents destroyComponent; simp [h]⟩

@[simp]
theorem destroyContainer_noop (s : Inst) (h : s.cDestroyContainer = true) :
    destroyContainer s = s := by
  unfold destroyContainer
  simp [h]

theorem destroyContainer_run (s : Inst) (h : s.cDestroyContainer = false) :
    (destroyContainer s).cClose = s.cClose
    ∧ (destroyContainer s).cCloseContainer = s.cCloseContainer
    ∧ (destroyContainer s).cCloseComponent = s.cCloseComponent
    ∧ (destroyContainer s).cDestroyContainer = true
    ∧ (destroyContainer s).rClose = s.rClose
    ∧ (destroyContainer s).rCloseContainer = s.rCloseContainer
    ∧ (destroyContainer s).rCloseComponent = s.rCloseComponent
    ∧ (destroyContainer s).rDestroyContainer = s.rDestroyContainer + 1
    ∧ (destroyContainer s).onCloseLog = s.onCloseLog
    ∧ (destroyContainer s).eventCloseFired = s.eventCloseFired
    ∧ (destroyContainer s).eventCloseCount = s.eventCloseCount
    ∧ (destroyContainer s).allRuns = s.allRuns := by
  unfold destroyContainer
  simp [h]

@[simp]
theorem destroyContainer_preserves (s : Inst) :
    (destroyContainer s).cClose = s.cClose
    ∧ (destroyContainer s).cCloseContainer = s.cCloseContainer
    ∧ (destroyContainer s).cCloseComponent = s.cCloseComponent
    ∧ (destroyContainer s).rClose = s.rClose
    ∧ (destroyContainer s).rCloseContainer = s.rCloseContainer
    ∧ (destroyContainer s).rCloseComponent = s.rCloseComponent
    ∧ (destroyContainer s).onCloseLog = s.onCloseLog
    ∧ (destroyContainer s).eventCloseFired = s.eventCloseFired
    ∧ (destroyContainer s).eventCloseCount = s.eventCloseCount
    ∧ (destroyContainer s).allRuns = s.allRuns := by
  by_cases h : s.cDestroyContainer
  · simp [h]
  · have hr := destroyContainer_run s (by simpa using h)
    exact ⟨hr.1, hr.2.1, hr.2.2.1, hr.2.2.2.2.1, hr.2.2.2.2.2.1,
      hr.2.2.2.2.2.2.1, hr.2.2.2.2.2.2.2.2.1, hr.2.2.2.2.2.2.2.2.2.1,
      hr.2.2.2.2.2.2.2.2.2.2.1, hr.2.2.2.2.2.2.2.2.2.2.2⟩

@[simp]
theorem closeContainer_noop (r? : Option CloseReason) (s : Inst)
    (h : s.cCloseContainer = true) : closeContainer r? s = s := by
  unfold closeContainer
  simp [h]

theorem closeContainer_run (r? : Option CloseReason) (s : Inst)
    (h : s.cCloseContainer = false) :
    (closeContainer r? s).cClose = s.cClose
    ∧ (closeContainer r? s).cCloseContainer = true
    ∧ (closeContainer r? s).cCloseComponent = true
    ∧ (closeContainer r? s).cDestroyContainer = true
    ∧ (closeContainer r? s).rClose = s.rClose
    ∧ (closeContainer r? s).rCloseContainer = s.rCloseContainer + 1
    ∧ (closeContainer r? s).rCloseComponent =
        s.rCloseComponent + (if s.cCloseComponent then 0 else 1)
    ∧ (closeContainer r? s).rDestroyContainer =
        s.rDestroyContainer + (if s.cDestroyContainer then 0 else 1)
    ∧ (closeContainer r? s).onCloseLog =
        s.onCloseLog ++ (if s.cCloseComponent
          then [r?.getD CloseReason.parentCall]
          else [r?.getD CloseReason.parentCall, r?.getD CloseReason.parentCall])
    ∧ (closeContainer r? s).eventCloseFired = true
    ∧ (closeContainer r? s).eventCloseCount =
        (if s.eventCloseFired then s.eventCloseCount else s.eventCloseCount + 1)
    ∧ (closeContainer r? s).allRuns = s.allRuns := by
  unfold closeContainer
  rcases hcc : s.cCloseComponent <;> rcases hdc : s.cDestroyContainer <;>
    simp [h, hcc, hdc, closeComponent_run, destroyContainer_run]

@[simp]
theorem closeContainer_preserves (r? : Option CloseReason) (s : Inst) :
    (closeContainer r? s).cClose = s.cClose
    ∧ (closeContainer r? s).rClose = s.rClose
    ∧ (closeContainer r? s).allRuns = s.allRuns := by
  by_cases h : s.cCloseContainer
  · simp [h]
  · have hr := closeContainer_run r? s (by simpa using h)
    exact ⟨hr.1, hr.2.2.2.2.1, hr.2.2.2.2.2.2.2.2.2.2.2⟩

@[simp]
theorem close_noop (r? : Option CloseReason) (s : Inst) (r : CloseReason)
    (h : s.cClose = some r) : close r? s = (s, r) := by
  unfold close
  simp [h]

theorem close_run_fields (r? : Option CloseReason) (s : Inst)
    (h : s.cClose = none) :
    (close r? s).2 = r?.getD CloseReason.parentCall
    ∧ (close r? s).1.cClose = some (r?.getD CloseReason.parentCall)
    ∧ (close r? s).1.cCloseContainer = true
    ∧ (close r? s).1.cCloseComponent = true
    ∧ (close r? s).1.cDestroyContainer =
        (if s.cCloseContainer then s.cDestroyContainer else true)
    ∧ (close r? s).1.rClose = s.rClose + 1
    ∧ (close r? s).1.rCloseContainer =
        s.rCloseContainer + (if s.cCloseContainer then 0 else 1)
    ∧ (close r? s).1.rCloseComponent =
        s.rCloseComponent + (if s.cCloseComponent then 0 else 1)
    ∧ (close r? s).1.rDestroyContainer =
        s.rDestroyContainer +
          (if s.cCloseContainer then 0 else if s.cDestroyContainer then 0 else 1)
    ∧ (close r? s).1.onCloseLog =
        s.onCloseLog ++
          (if s.cCloseComponent
            then [r?.getD CloseReason.parentCall]
            else [r?.getD CloseReason.parentCall, CloseReason.parentCall]) ++
          (if s.cCloseContainer then [] else [CloseReason.parentCall])
    ∧ (close r? s).1.eventCloseFired = true
    ∧ (close r? s).1.eventCloseCount =
        (if s.eventCloseFired then s.eventCloseCount else s.eventCloseCount + 1) := by
  unfold close
  rcases hcc : s.cCloseComponent <;> rcases hct : s.cCloseContainer <;>
    rcases hdc : s.cDestroyContainer <;>
    simp [h, hcc, hct, hdc, closeComponent_run, closeContainer_run,
      destroyContainer_run]

theorem close_run_destroyed (r? : Option CloseReason) (s : Inst)
    (h : s.cClose = none) (hanon : anonIn s) :
    (close r? s).1.clean = [] ∧ (close r? s).1.allRuns = s.allRuns + 1 := by
  unfold close
  rw [h]
  have hX : anonIn (closeContainer none (closeComponent none
      (onCloseProp (r?.getD CloseReason.parentCall)
        (triggerOnceClose
          { s with cClose := some (r?.getD CloseReason.parentCall),
                   rClose := s.rClose + 1 })))) :=
    anonIn_closeContainer _ _
      (anonIn_closeComponent _ _
        (anonIn_onCloseProp _ _ (anonIn_triggerOnce _ hanon)))
  obtain ⟨k, hk⟩ := hX
  have hne := List.ne_nil_of_mem hk
  have hd := destroy_run _ hne
  refine ⟨hd.1, ?_⟩
  rw [hd.2]
  have hA : (closeContainer none (closeComponent none
      (onCloseProp (r?.getD CloseReason.parentCall)
        (triggerOnceClose
          { s with cClose := some (r?.getD CloseReason.parentCall),
                   rClose := s.rClose + 1 })))).allRuns = s.allRuns := by
    simp
  rw [hA]

theorem invp_closeComponent (r? : Option CloseReason) (s : Inst) (h : InvP s) :
    InvP (closeComponent r? s) := by
  by_cases hc : s.cCloseComponent
  · rwa [closeComponent_noop r? s hc]
  · have hc2 : s.cCloseComponent = false := by simpa using hc
    have hcont : s.cCloseContainer = false := by
      cases hv : s.cCloseContainer
      · rfl
      · exact absurd (h.hContComp hv) (by simp [hc2])
    have hclose : s.cClose = none := by
      cases hv : s.cClose with
      | none => rfl
      | some r => exact absurd (h.hCloseComp (by simp [hv])) (by simp [hc2])
    obtain ⟨e1, e2, e3, e4, e5, e6, e7, e8, e9, e10, e11, e12⟩ :=
      closeComponent_run r? s hc2
    have hfired : s.eventCloseFired = false := by
      rw [h.hEvF, hclose, hcont, hc2]; rfl
    constructor
    · simp [e5, e1, h.hrClose]
    · simp [e6, e2, h.hrCont]
    · have hx := h.hrComp
      rw [hc2] at hx
      simp [e7, e3, hx]
    · simp [e8, e4, h.hrDest]
    · simp [e1, hclose]
    · simp [e1, hclose]
    · simp [e2, hcont]
    · simp [e2, hcont]
    · have hx := h.hLog
      rw [hclose, hcont, hc2] at hx
      simp [e9, e1, e2, e3, hclose, hcont, hx]
    · simp [e10, e1, e2, e3, hclose, hcont]
    · have hx := h.hEvC
      rw [hfired] at hx
      simp [e11, e10, hfired, hx]
    · rw [e12, e1]
      exact h.hAll
    · intro _
      exact anonIn_closeComponent r? s (h.hAnon hclose)

theorem invp_destroyContainer (s : Inst) (h : InvP s) :
    InvP (destroyContainer s) := by
  by_cases hc : s.cDestroyContainer
  · rwa [destroyContainer_noop s hc]
  · have hc2 : s.cDestroyContainer = false := by simpa using hc
    have hcont : s.cCloseContainer = false := by
      cases hv : s.cCloseContainer
      · rfl
      · exact absurd (h.hContDest hv) (by simp [hc2])
    have hclose : s.cClose = none := by
      cases hv : s.cClose with
      | none => rfl
      | some r => exact absurd (h.hCloseCont (by simp [hv])) (by simp [hcont])
    obtain ⟨e1, e2, e3, e4, e5, e6, e7, e8, e9, e10, e11, e12⟩ :=
      destroyContainer_run s hc2
    constructor
    · simp [e5, e1, h.hrClose]
    · simp [e6, e2, h.hrCont]
    · simp [e7, e3, h.hrComp]
    · have hx := h.hrDest
      rw [hc2] at hx
      simp [e8, e4, hx]
    · simp [e1, hclose]
    · simp [e1, hclose]
    · simp [e2, hcont]
    · simp [e2, hcont]
    · rw [e9, e1, e2, e3]
      exact h.hLog
    · rw [e10, e1, e2, e3]
      exact h.hEvF
    · rw [e11, e10]
      exact h.hEvC
    · rw [e12, e1]
      exact h.hAll
    · intro _
      exact anonIn_destroyContainer s (h.hAnon hclose)

theorem invp_closeContainer (r? : Option CloseReason) (s : Inst) (h : InvP s) :
    InvP (closeContainer r? s) := by
  by_cases hc : s.cCloseContainer
  · rwa [closeContainer_noop r? s hc]
  · have hc2 : s.cCloseContainer = false := by simpa using hc
    have hclose : s.cClose = none := by
      cases hv : s.cClose with
      | none => rfl
      | some r => exact absurd (h.hCloseCont (by simp [hv])) (by simp [hc2])
    obtain ⟨e1, e2, e3, e4, e5, e6, e7, e8, e9, e10, e11, e12⟩ :=
      closeContainer_run r? s hc2
    constructor
    · simp [e5, e1, h.hrClose]
    · have hx := h.hrCont
      rw [hc2] at hx
      simp [e6, e2, hx]
    · rcases hcc : s.cCloseComponent with _ | _ <;>
        · have hx := h.hrComp
          rw [hcc] at hx
          simp [e7, e3, hcc, hx]
    · rcases hdd : s.cDestroyContainer with _ | _ <;>
        · have hx := h.hrDest
          rw [hdd] at hx
          simp [e8, e4, hdd, hx]
    · simp [e1, hclose, e2]
    · intro _
      exact e3
    · intro _
      exact e3
    · intro _
      exact e4
    · have hx := h.hLog
      rw [hclose, hc2] at hx
      rcases hcc : s.cCloseComponent with _ | _ <;>
        · rw [hcc] at hx
          simp [e9, e1, e2, e3, hclose, hcc, hx]
    · simp [e10, e1, e2, e3, hclose]
    · have hfe := h.hEvF
      rw [hclose, hc2] at hfe
      have hx := h.hEvC
      rcases hcc : s.cCloseComponent with _ | _ <;>
        · rw [hcc] at hfe
          simp at hfe
          rw [hfe] at hx
          simp [e11, e10, hfe, hx]
    · rw [e12, e1]
      exact h.hAll
    · intro hn
      exact anonIn_closeContainer r? s (h.hAnon hclose)

theorem invp_close (r? : Option CloseReason) (s : Inst) (h : InvP s) :
    InvP (close r? s).1 ∧ (close r? s).1.cClose = some ((close r? s).2) := by
  cases hv : s.cClose with
  | some r =>
    rw [close_noop r? s r hv]
    exact ⟨h, hv⟩
  | none =>
    obtain ⟨e1, e2, e3, e4, e5, e6, e7, e8, e9, e10, e11, e12⟩ :=
      close_run_fields r? s hv
    obtain ⟨d1, d2⟩ := close_run_destroyed r? s hv (h.hAnon hv)
    refine ⟨?_, by rw [e1, e2]⟩
    constructor
    · have hx := h.hrClose
      rw [hv] at hx
      simp only [Option.isSome_none, Bool.toNat_false] at hx
      simp [e6, e2, hx]
    · rcases hct : s.cCloseContainer with _ | _ <;>
        · have hx := h.hrCont
          rw [hct] at hx
          simp [e7, e3, hct, hx]
    · rcases hcc : s.cCloseComponent with _ | _ <;>
        · have hx := h.hrComp
          rw [hcc] at hx
          simp [e8, e4, hcc, hx]
    · rcases hct : s.cCloseContainer with _ | _
      · rcases hdd : s.cDestroyContainer with _ | _ <;>
          · have hx := h.hrDest
            rw [hdd] at hx
            simp [e9, e5, hct, hdd, hx]
      · have hdd := h.hContDest hct
        have hx := h.hrDest
        rw [hdd] at hx
        simp [e9, e5, hct, hdd, hx]
    · intro _
      exact e3
    · intro _
      exact e4
    · intro _
      exact e4
    · rcases hct : s.cCloseContainer with _ | _
      · intro _
        simp [e5, hct]
      · intro _
        rw [e5]
        simp [hct, h.hContDest hct]
    · have hx := h.hLog
      rw [hv] at hx
      rcases hct : s.cCloseContainer with _ | _ <;>
        rcases hcc : s.cCloseComponent with _ | _ <;>
        · rw [hct, hcc] at hx
          simp at hx
          simp [e10, e2, e3, e4, hct, hcc, hx]
    · simp [e11, e2, e3, e4]
    · have hx := h.hEvC
      rcases hfe : s.eventCloseFired with _ | _ <;>
        · rw [hfe] at hx
          simp at hx
          simp [e12, e11, hfe, hx]
    · rw [d2, e2]
      have hx := h.hAll
      rw [hv] at hx
      simp only [Option.isSome_none, Bool.toNat_false] at hx
      simp [hx]
    · intro hn
      rw [e2] at hn
      exact absurd hn (by simp)

theorem runCalls_invariant (cs : List LCall) (s : Inst) (outs : List CloseReason)
    (h : InvP s) (ho : OutsOk s outs) :
    InvP (runCalls cs s outs).1
    ∧ OutsOk (runCalls cs s outs).1 (runCalls cs s outs).2
    ∧ (s.cClose.isSome = true → (runCalls cs s outs).1.cClose.isSome = true)
    ∧ ((∃ r?, LCall.close r? ∈ cs) → (runCalls cs s outs).1.cClose.isSome = true) := by
  induction cs generalizing s outs with
  | nil =>
    refine ⟨h, ho, fun hx => hx, ?_⟩
    rintro ⟨r?, hr⟩
    exact absurd hr (List.not_mem_nil _)
  | cons c rest ih =>
    cases c with
    | close r? =>
      cases hv : s.cClose with
      | some r =>
        have hstep : runCalls (LCall.close r? :: rest) s outs
            = runCalls rest s (outs ++ [r]) := by
          simp only [runCalls]
          rw [close_noop r? s r hv]
        rw [hstep]
        have ho2 : OutsOk s (outs ++ [r]) := by
          intro o hm
          rcases List.mem_append.mp hm with hm | hm
          · exact ho o hm
          · simp at hm
            rw [hm, hv]
        obtain ⟨j1, j2, j3, j4⟩ := ih s (outs ++ [r]) h ho2
        exact ⟨j1, j2, fun _ => j3 (by simp [hv]), fun _ => j3 (by simp [hv])⟩
      | none =>
        obtain ⟨hI, hEq⟩ := invp_close r? s h
        have ho2 : OutsOk (close r? s).1 (outs ++ [(close r? s).2]) := by
          intro o hm
          rcases List.mem_append.mp hm with hm | hm
          · exact absurd (ho o hm) (by simp [hv])
          · simp at hm
            rw [hm]
            exact hEq
        have hstep : runCalls (LCall.close r? :: rest) s outs
            = runCalls rest (close r? s).1 (outs ++ [(close r? s).2]) := rfl
        rw [hstep]
        obtain ⟨j1, j2, j3, j4⟩ := ih (close r? s).1 (outs ++ [(close r? s).2]) hI ho2
        have hs2 : (close r? s).1.cClose.isSome = true := by simp [hEq]
        exact ⟨j1, j2, fun _ => j3 hs2, fun _ => j3 hs2⟩
    | closeContainer r? =>
      have hstep : runCalls (LCall.closeContainer r? :: rest) s outs
          = runCalls rest (closeContainer r? s) outs := rfl
      rw [hstep]
      have hpres := (closeContainer_preserves r? s).1
      have ho2 : OutsOk (closeContainer r? s) outs := by
        intro o hm
        rw [hpres]
        exact ho o hm
      obtain ⟨j1, j2, j3, j4⟩ := ih _ outs (invp_closeContainer r? s h) ho2
      refine ⟨j1, j2, fun hx => j3 (by rw [hpres]; exact hx), ?_⟩
      rintro ⟨rq, hm⟩
      rcases List.mem_cons.mp hm with hm | hm
      · exact absurd hm (by simp)
      · exact j4 ⟨rq, hm⟩
    | closeComponent r? =>
      have hstep : runCalls (LCall.closeComponent r? :: rest) s outs
          = runCalls rest (closeComponent r? s) outs := rfl
      rw [hstep]
      have hpres := (closeComponent_preserves r? s).1
      have ho2 : OutsOk (closeComponent r? s) outs := by
        intro o hm
        rw [hpres]
        exact ho o hm
      obtain ⟨j1, j2, j3, j4⟩ := ih _ outs (invp_closeComponent r? s h) ho2
      refine ⟨j1, j2, fun hx => j3 (by rw [hpres]; exact hx), ?_⟩
      rintro ⟨rq, hm⟩
      rcases List.mem_cons.mp hm with hm | hm
      · exact absurd hm (by simp)
      · exact j4 ⟨rq, hm⟩
    | destroyContainer =>
      have hstep : runCalls (LCall.destroyContainer :: rest) s outs
          = runCalls rest (destroyContainer s) outs := rfl
      rw [hstep]
      have hpres := (destroyContainer_preserves s).1
      have ho2 : OutsOk (destroyContainer s) outs := by
        intro o hm
        rw [hpres]
        exact ho o hm
      obtain ⟨j1, j2, j3, j4⟩ := ih _ outs (invp_destroyContainer s h) ho2
      refine ⟨j1, j2, fun hx => j3 (by rw [hpres]; exact hx), ?_⟩
      rintro ⟨rq, hm⟩
      rcases List.mem_cons.mp hm with hm | hm
      · exact absurd hm (by simp)
      · exact j4 ⟨rq, hm⟩

end Lifecycle

namespace ErrorModel

theorem error_noop_of_errored (e : Err) (s : EInst) (h : s.errored = true) :
    error e s = (s, EOutcome.noopReturn) := by
  unfold error
  simp [h]

theorem error_sets_errored (e : Err) (s : EInst) : (error e s).1.errored = true := by
  unfold error
  split
  · simp_all
  · rcases hd : s.destroyThrows with _ | d <;>
      rcases ho : s.hasOnError with _ | _ <;>
      rcases ht : s.onErrorThrows with _ | e2 <;>
      simp [hd, ho, ht]

end ErrorModel

namespace Bootstrap

theorem lookupUid_filterNe (u : Nat) (l : List (Nat × Nat)) :
    lookupUid u (l.filter (fun p => !(p.1 == u))) = none := by
  unfold lookupUid
  rw [List.find?_eq_none.mpr]
  · rfl
  · intro x hx
    simpa using (List.mem_filter.mp hx).2

theorem lookupUid_append_fresh (u v : Nat) (l : List (Nat × Nat))
    (h : ∀ p ∈ l, p.1 ≠ u) :
    lookupUid u (l ++ [(u, v)]) = some v := by
  induction l with
  | nil => simp [lookupUid, List.find?]
  | cons a l ih =>
    have ha : (a.1 == u) = false := by
      simpa using h a (by simp)
    simp only [List.cons_append, lookupUid, List.find?, ha]
    exact ih (fun p hp => h p (by simp [hp]))

end Bootstrap

/-! ## The claims -/

/-- Claim C1 counterexample: one close() call on a representative rendered
instance invokes the props.onClose callback three times (once from the close
body and once each from the closeComponent and closeContainer bodies), not
exactly once as the claim states. -/
theorem C1_close_counterexample :
    (Lifecycle.close none instEx).1.onCloseLog =
      [Lifecycle.CloseReason.parentCall, Lifecycle.CloseReason.parentCall,
       Lifecycle.CloseReason.parentCall]
    ∧ (Lifecycle.close none instEx).1.onCloseLog.length ≠ 1 := by
  decide

/-- Claim C1 (amended): for any sequence of invocations of the four memoized
methods containing at least one close(), starting from a fresh instance whose
registry holds an anonymous entry: the CLOSE event fires exactly once, the
props.onClose callback fires exactly three times, the full Cleanup Registry
runs exactly once, each of the four memoized bodies executes exactly once (so
at most once however many times and from however many call sites they are
invoked), and every close() call resolves to the same outcome. -/
theorem C1_close_idempotent_amended (cs : List Lifecycle.LCall)
    (s0 : Lifecycle.Inst) (hfresh : Lifecycle.Fresh s0)
    (hanon : Lifecycle.anonIn s0)
    (hclose : ∃ r?, Lifecycle.LCall.close r? ∈ cs) :
    (Lifecycle.runCalls cs s0 []).1.eventCloseCount = 1
    ∧ (Lifecycle.runCalls cs s0 []).1.onCloseLog.length = 3
    ∧ (Lifecycle.runCalls cs s0 []).1.allRuns = 1
    ∧ (Lifecycle.runCalls cs s0 []).1.rClose = 1
    ∧ (Lifecycle.runCalls cs s0 []).1.rCloseContainer = 1
    ∧ (Lifecycle.runCalls cs s0 []).1.rCloseComponent = 1
    ∧ (Lifecycle.runCalls cs s0 []).1.rDestroyContainer = 1
    ∧ ∃ r, ∀ o ∈ (Lifecycle.runCalls cs s0 []).2, o = r := by
  obtain ⟨f1, f2, f3, f4, f5, f6, f7, f8, f9, f10, f11, f12⟩ := hfresh
  have h0 : Lifecycle.InvP s0 :=
    ⟨by simp [f1, f5], by simp [f2, f6], by simp [f3, f7], by simp [f4, f8],
     by simp [f1], by simp [f1], by simp [f2], by simp [f2],
     by simp [f11, f1, f2, f3], by simp [f9, f1, f2, f3], by simp [f10, f9],
     by simp [f12, f1], fun _ => hanon⟩
  obtain ⟨hI, hOuts, _, hSome⟩ :=
    Lifecycle.runCalls_invariant cs s0 [] h0 (fun o hm => absurd hm (List.not_mem_nil o))
  have hIsSome := hSome hclose
  cases hvc : (Lifecycle.runCalls cs s0 []).1.cClose with
  | none =>
    rw [hvc] at hIsSome
    exact absurd hIsSome (by simp)
  | some rr =>
    have hct := hI.hCloseCont (by simp [hvc])
    have hcc := hI.hCloseComp (by simp [hvc])
    have hcd := hI.hContDest hct
    refine ⟨?_, ?_, ?_, ?_, ?_, ?_, ?_, rr, fun o hm => ?_⟩
    · rw [hI.hEvC, hI.hEvF, hvc, hct, hcc]
      rfl
    · rw [hI.hLog, hvc, hct, hcc]
      rfl
    · rw [hI.hAll, hvc]
      rfl
    · rw [hI.hrClose, hvc]
      rfl
    · rw [hI.hrCont, hct]
      rfl
    · rw [hI.hrComp, hcc]
      rfl
    · rw [hI.hrDest, hcd]
      rfl
    · have hx := hOuts o hm
      rw [hvc] at hx
      exact (Option.some_inj.mp hx).symm

/-- Claim C1 witness: the amended theorem applied to a concrete call sequence
against the representative instance. -/
theorem C1_close_idempotent_amended_witness :
    (Lifecycle.Fresh instEx ∧ Lifecycle.anonIn instEx
      ∧ (∃ r?, Lifecycle.LCall.close r? ∈ callsEx))
    ∧ ((Lifecycle.runCalls callsEx instEx []).1.eventCloseCount = 1
      ∧ (Lifecycle.runCalls callsEx instEx []).1.onCloseLog.length = 3
      ∧ (Lifecycle.runCalls callsEx instEx []).1.allRuns = 1
      ∧ (Lifecycle.runCalls callsEx instEx []).1.rClose = 1
      ∧ (Lifecycle.runCalls callsEx instEx []).1.rCloseContainer = 1
      ∧ (Lifecycle.runCalls callsEx instEx []).1.rCloseComponent = 1
      ∧ (Lifecycle.runCalls callsEx instEx []).1.rDestroyContainer = 1
      ∧ ∃ r, ∀ o ∈ (Lifecycle.runCalls callsEx instEx []).2, o = r) :=
  ⟨⟨⟨rfl, rfl, rfl, rfl, rfl, rfl, rfl, rfl, rfl, rfl, rfl, rfl⟩,
    ⟨0, by decide⟩, ⟨none, by decide⟩⟩,
   C1_close_idempotent_amended callsEx instEx
     ⟨rfl, rfl, rfl, rfl, rfl, rfl, rfl, rfl, rfl, rfl, rfl, rfl⟩
     ⟨0, by decide⟩ ⟨none, by decide⟩⟩

/-- Claim C2: once error(e1) has started and set the errored flag, a later
error(e2) returns immediately without performing any handling: the state and
trace are unchanged and the call returns the silent no-op outcome, so the
host observes only the first error's handling. -/
theorem C2_first_error_wins (s : ErrorModel.EInst) (e1 e2 : ErrorModel.Err) :
    (ErrorModel.error e1 s).1.errored = true
    ∧ ErrorModel.error e2 (ErrorModel.error e1 s).1
        = ((ErrorModel.error e1 s).1, ErrorModel.EOutcome.noopReturn)
    ∧ (ErrorModel.error e2 (ErrorModel.error e1 s).1).1.trace
        = (ErrorModel.error e1 s).1.trace := by
  have h1 := ErrorModel.error_sets_errored e1 s
  have h2 := ErrorModel.error_noop_of_errored e2 _ h1
  exact ⟨h1, h2, by rw [h2]⟩

/-- Claim C3 counterexample: a proxy window reporting not-closed at the
immediate check and closed at the 200ms check triggers a user-close even
though the two checks did not both report closed, refuting the
only-when-both-checks-report-closed claim. -/
theorem C3_checkClose_counterexample :
    (Lifecycle.checkClose worldEx).userCloses = [200]
    ∧ ¬(worldEx.winClosedAt worldEx.now = true
        ∧ worldEx.winClosedAt (worldEx.now + 200) = true) := by
  decide

/-- Claim C3 (amended): checkClose polls isClosed immediately; if that first
check reports closed it triggers a user-close at once; otherwise it polls
again after a fixed 200ms debounce and triggers a user-close exactly when
the second check reports closed. -/
theorem C3_checkClose_two_phase_amended (w : Lifecycle.World)
    (h0 : w.userCloses = []) :
    (w.winClosedAt w.now = true →
      (Lifecycle.checkClose w).userCloses = [w.now]
      ∧ (Lifecycle.checkClose w).now = w.now)
    ∧ (w.winClosedAt w.now = false → w.winClosedAt (w.now + 200) = true →
      (Lifecycle.checkClose w).userCloses = [w.now + 200]
      ∧ (Lifecycle.checkClose w).now = w.now + 200)
    ∧ (w.winClosedAt w.now = false → w.winClosedAt (w.now + 200) = false →
      (Lifecycle.checkClose w).userCloses = []
      ∧ (Lifecycle.checkClose w).now = w.now + 200) := by
  refine ⟨fun h1 => ?_, fun h1 h2 => ?_, fun h1 h2 => ?_⟩ <;>
    simp [Lifecycle.checkClose, Lifecycle.isClosedW, Lifecycle.delay,
      Lifecycle.userCloseW, h0, h1]
  · simp [h2]
  · simp [h2]

/-- Claim C3 witness: the amended theorem applied to a window that is closed
at the immediate check. -/
theorem C3_checkClose_two_phase_amended_witness :
    (worldClosedNow.userCloses = []
      ∧ worldClosedNow.winClosedAt worldClosedNow.now = true)
    ∧ ((Lifecycle.checkClose worldClosedNow).userCloses = [worldClosedNow.now]
      ∧ (Lifecycle.checkClose worldClosedNow).now = worldClosedNow.now) :=
  ⟨⟨rfl, rfl⟩, (C3_checkClose_two_phase_amended worldClosedNow rfl).1 rfl⟩

/-- Claim C4: in every valid execution of the render task graph,
setWindowName never begins before both open and getDomain have resolved, and
switchPrerender never begins before both prerender has resolved and the
readiness (onInit) signal exists. -/
theorem C4_render_dependency_ordering (ric : Bool)
    (start finish : RenderGraph.RTask → Nat)
    (h : RenderGraph.ValidExec ric start finish) :
    finish RenderGraph.RTask.openWindow ≤ start RenderGraph.RTask.setWindowName
    ∧ finish RenderGraph.RTask.getDomain ≤ start RenderGraph.RTask.setWindowName
    ∧ finish RenderGraph.RTask.prerender ≤ start RenderGraph.RTask.switchPrerender
    ∧ finish RenderGraph.RTask.onInitSignal ≤ start RenderGraph.RTask.switchPrerender :=
  ⟨(h RenderGraph.RTask.setWindowName).2 _ (by simp [RenderGraph.deps]),
   (h RenderGraph.RTask.setWindowName).2 _ (by simp [RenderGraph.deps]),
   (h RenderGraph.RTask.switchPrerender).2 _ (by simp [RenderGraph.deps]),
   (h RenderGraph.RTask.switchPrerender).2 _ (by simp [RenderGraph.deps])⟩

/-- Claim C4 witness: a concrete topological schedule of the graph. -/
theorem C4_render_dependency_ordering_witness :
    RenderGraph.ValidExec true RenderGraph.startW finishW
    ∧ (finishW RenderGraph.RTask.openWindow
        ≤ RenderGraph.startW RenderGraph.RTask.setWindowName
      ∧ finishW RenderGraph.RTask.getDomain
        ≤ RenderGraph.startW RenderGraph.RTask.setWindowName
      ∧ finishW RenderGraph.RTask.prerender
        ≤ RenderGraph.startW RenderGraph.RTask.switchPrerender
      ∧ finishW RenderGraph.RTask.onInitSignal
        ≤ RenderGraph.startW RenderGraph.RTask.switchPrerender) :=
  ⟨by unfold RenderGraph.ValidExec; decide,
   C4_render_dependency_ordering true RenderGraph.startW finishW
     (by unfold RenderGraph.ValidExec; decide)⟩

/-- Claim C5: error(err, props) first sets the errored flag, rejects the
readiness (onInit) signal and runs full destroy before any notification;
then it invokes onError when supplied; when onError is absent the original
error is rethrown; when invoking onError itself throws, the secondary
failure is wrapped together with the original error and surfaced. -/
theorem C5_error_handling_order (s : ErrorModel.EInst) (e : ErrorModel.Err)
    (hfresh : s.errored = false) (hd : s.destroyThrows = none) :
    (ErrorModel.error e s).1.errored = true
    ∧ (ErrorModel.error e s).1.trace = s.trace ++
        ([ErrorModel.EEvent.setErrored, ErrorModel.EEvent.rejectOnInit e,
          ErrorModel.EEvent.runDestroy] ++
          (if s.hasOnError then [ErrorModel.EEvent.callOnError e] else []))
    ∧ (ErrorModel.error e s).2 =
        (if s.hasOnError then
          (match s.onErrorThrows with
            | some e2 => ErrorModel.EOutcome.rejected (ErrorModel.ErrVal.wrapped e e2)
            | none => ErrorModel.EOutcome.resolved)
          else ErrorModel.EOutcome.rejected (ErrorModel.ErrVal.base e)) := by
  unfold ErrorModel.error
  rcases hoe : s.hasOnError with _ | _ <;>
    rcases hot : s.onErrorThrows with _ | e2 <;>
    simp [hfresh, hd, hoe, hot]

/-- Claim C5 witness: the theorem applied to an instance whose onError
callback itself throws. -/
theorem C5_error_handling_order_witness :
    (errInstW.errored = false ∧ errInstW.destroyThrows = none)
    ∧ ((ErrorModel.error 3 errInstW).1.errored = true
      ∧ (ErrorModel.error 3 errInstW).1.trace = errInstW.trace ++
          ([ErrorModel.EEvent.setErrored, ErrorModel.EEvent.rejectOnInit 3,
            ErrorModel.EEvent.runDestroy] ++
            (if errInstW.hasOnError then [ErrorModel.EEvent.callOnError 3] else []))
      ∧ (ErrorModel.error 3 errInstW).2 =
          (if errInstW.hasOnError then
            (match errInstW.onErrorThrows with
              | some e2 => ErrorModel.EOutcome.rejected (ErrorModel.ErrVal.wrapped 3 e2)
              | none => ErrorModel.EOutcome.resolved)
            else ErrorModel.EOutcome.rejected (ErrorModel.ErrVal.base 3))) :=
  ⟨⟨rfl, rfl⟩, C5_error_handling_order errInstW 3 rfl rfl⟩

/-- Claim C6: on the UID-reference bootstrap path (cross-domain target,
render into a different window), the generated entries of the global props
and windows registries are each paired with a cleanup delete, so right after
the bootstrap both entries are present and after destroy() both are absent. -/
theorem C6_registry_hygiene (a : Bootstrap.ParentRefArgs) (uid uidW sProps : Nat)
    (s0 : Bootstrap.BInst)
    (hctx : a.ctx = Lifecycle.CtxType.iframe)
    (hself : a.renderToSelf = false)
    (hfp : ∀ p ∈ s0.globals.propsReg, p.1 ≠ uid)
    (hfw : ∀ p ∈ s0.globals.windowsReg, p.1 ≠ uidW) :
    (Bootstrap.buildChildWindowName a false uid uidW sProps s0).1.propsField
        = Bootstrap.PropsRef.byUid uid
    ∧ (Bootstrap.buildChildWindowName a false uid uidW sProps s0).1.componentParent
        = Bootstrap.WinRef.globalRef uidW
    ∧ Bootstrap.lookupUid uid
        (Bootstrap.buildChildWindowName a false uid uidW sProps s0).2.globals.propsReg
        = some sProps
    ∧ Bootstrap.lookupUid uidW
        (Bootstrap.buildChildWindowName a false uid uidW sProps s0).2.globals.windowsReg
        = some a.curWindow
    ∧ Bootstrap.lookupUid uid
        (Bootstrap.destroy
          (Bootstrap.buildChildWindowName a false uid uidW sProps s0).2).globals.propsReg
        = none
    ∧ Bootstrap.lookupUid uidW
        (Bootstrap.destroy
          (Bootstrap.buildChildWindowName a false uid uidW sProps s0).2).globals.windowsReg
        = none := by
  have hb : Bootstrap.buildChildWindowName a false uid uidW sProps s0 =
      ({ uid := uid, componentParent := Bootstrap.WinRef.globalRef uidW,
         propsField := Bootstrap.PropsRef.byUid uid },
       { clean := (s0.clean ++ [Bootstrap.CAction.deleteWindowsEntry uidW])
            ++ [Bootstrap.CAction.deletePropsEntry uid],
         globals := { propsReg := s0.globals.propsReg ++ [(uid, sProps)],
                      windowsReg := s0.globals.windowsReg ++ [(uidW, a.curWindow)] } }) := by
    unfold Bootstrap.buildChildWindowName Bootstrap.getComponentParentRef
    rw [hctx, hself]
    simp
  rw [hb]
  refine ⟨rfl, rfl, ?_, ?_, ?_, ?_⟩
  · exact Bootstrap.lookupUid_append_fresh uid sProps _ hfp
  · exact Bootstrap.lookupUid_append_fresh uidW a.curWindow _ hfw
  · unfold Bootstrap.destroy
    rw [if_neg (by simp)]
    simp only [List.foldl_append, List.foldl_cons, List.foldl_nil]
    exact Bootstrap.lookupUid_filterNe uid _
  · unfold Bootstrap.destroy
    rw [if_neg (by simp)]
    simp only [List.foldl_append, List.foldl_cons, List.foldl_nil]
    exact Bootstrap.lookupUid_filterNe uidW _

/-- Claim C6 witness: the theorem applied to empty registries and fresh
uids. -/
theorem C6_registry_hygiene_witness :
    (prArgsEx.ctx = Lifecycle.CtxType.iframe ∧ prArgsEx.renderToSelf = false
      ∧ (∀ p ∈ bInstEx.globals.propsReg, p.1 ≠ 11)
      ∧ (∀ p ∈ bInstEx.globals.windowsReg, p.1 ≠ 22))
    ∧ ((Bootstrap.buildChildWindowName prArgsEx false 11 22 33 bInstEx).1.propsField
        = Bootstrap.PropsRef.byUid 11
      ∧ (Bootstrap.buildChildWindowName prArgsEx false 11 22 33 bInstEx).1.componentParent
        = Bootstrap.WinRef.globalRef 22
      ∧ Bootstrap.lookupUid 11
          (Bootstrap.buildChildWindowName prArgsEx false 11 22 33 bInstEx).2.globals.propsReg
        = some 33
      ∧ Bootstrap.lookupUid 22
          (Bootstrap.buildChildWindowName prArgsEx false 11 22 33 bInstEx).2.globals.windowsReg
        = some prArgsEx.curWindow
      ∧ Bootstrap.lookupUid 11
          (Bootstrap.destroy
            (Bootstrap.buildChildWindowName prArgsEx false 11 22 33 bInstEx).2).globals.propsReg
        = none
      ∧ Bootstrap.lookupUid 22
          (Bootstrap.destroy
            (Bootstrap.buildChildWindowName prArgsEx false 11 22 33 bInstEx).2).globals.windowsReg
        = none) :=
  ⟨⟨rfl, rfl, by simp [bInstEx], by simp [bInstEx]⟩,
   C6_registry_hygiene prArgsEx 11 22 33 bInstEx rfl rfl
     (by simp [bInstEx]) (by simp [bInstEx])⟩

/-- Claim C7: renderTo with a target that is not under the same top-level
browsing context throws before performing any action (so before any window
is opened); renderTo to a cross-origin target whose resolved domain does not
match the current origin throws the mismatch error, whose message contains
both the resolved domain and the current origin. -/
theorem C7_remote_render_guard :
    (∀ e : RemoteRender.RenderToEnv, e.targetIsSelf = false →
      e.sameTopWindow = false →
      (RemoteRender.renderTo e).1 = [] ∧ (RemoteRender.renderTo e).2.isSome = true)
    ∧ (∀ (e : RemoteRender.RenderToEnv) (d : String),
        e.targetIsSelf = false →
        (e.element == RemoteRender.ElemArg.nonString) = false →
        e.targetExists = true → e.sameTopWindow = true →
        e.targetSameDomain = false → e.resolvedDomain = some d →
        e.domainMatchesOrigin = false →
        (RemoteRender.renderTo e).1 = []
        ∧ (RemoteRender.renderTo e).2
            = some (RemoteRender.RTErr.remoteDomainMismatch d e.origin)
        ∧ (∃ x y, RemoteRender.errorMessage
            (RemoteRender.RTErr.remoteDomainMismatch d e.origin) = x ++ d ++ y)
        ∧ (∃ x y, RemoteRender.errorMessage
            (RemoteRender.RTErr.remoteDomainMismatch d e.origin)
              = x ++ e.origin ++ y)) := by
  constructor
  · intro e h1 h2
    unfold RemoteRender.renderTo RemoteRender.checkAllowRemoteRender
    rcases hel : (e.element == RemoteRender.ElemArg.nonString) with _ | _ <;>
      rcases hte : e.targetExists with _ | _ <;>
      simp [h1, h2, hel, hte]
  · intro e d h1 h2 h3 h4 h5 h6 h7
    unfold RemoteRender.renderTo RemoteRender.checkAllowRemoteRender
    rw [h6]
    simp only [h1, h2, h3, h4, h5, h7, RemoteRender.errorMessage]
    refine ⟨by simp, by simp, ?_, ?_⟩
    · exact ⟨RemoteRender.msgPre, RemoteRender.msgMid ++ e.origin,
        String.append_assoc _ _ _⟩
    · exact ⟨RemoteRender.msgPre ++ d ++ RemoteRender.msgMid,
        RemoteRender.emptyStr, (String.append_empty _).symm⟩

/-- Claim C7 witness: the theorem applied to a non-adjacent target and to a
cross-origin target with a mismatched domain. -/
theorem C7_remote_render_guard_witness :
    (renderToEnvAdj.targetIsSelf = false ∧ renderToEnvAdj.sameTopWindow = false
      ∧ renderToEnvMismatch.targetIsSelf = false
      ∧ renderToEnvMismatch.resolvedDomain = some domainEx)
    ∧ ((RemoteRender.renderTo renderToEnvAdj).1 = []
      ∧ (RemoteRender.renderTo renderToEnvAdj).2.isSome = true)
    ∧ ((RemoteRender.renderTo renderToEnvMismatch).1 = []
      ∧ (RemoteRender.renderTo renderToEnvMismatch).2
          = some (RemoteRender.RTErr.remoteDomainMismatch domainEx
              renderToEnvMismatch.origin)
      ∧ (∃ x y, RemoteRender.errorMessage
          (RemoteRender.RTErr.remoteDomainMismatch domainEx
            renderToEnvMismatch.origin) = x ++ domainEx ++ y)
      ∧ (∃ x y, RemoteRender.errorMessage
          (RemoteRender.RTErr.remoteDomainMismatch domainEx
            renderToEnvMismatch.origin)
            = x ++ renderToEnvMismatch.origin ++ y)) :=
  ⟨⟨rfl, rfl, rfl, rfl⟩,
   C7_remote_render_guard.1 renderToEnvAdj rfl rfl,
   C7_remote_render_guard.2 renderToEnvMismatch domainEx rfl rfl rfl rfl rfl rfl rfl⟩

/-- Claim C8: resize with waitForTransition false resolves right after the
driver resize, with no transition wait; resize with waitForTransition true
(the default when no options are passed) and a visible element sets the
overflow to hidden, suspends until the element-stopped-moving signal, then
restores the overflow and only then resolves. -/
theorem C8_resize_wait_for_transition (w h : Option Nat) (he : Bool) :
    ResizeModel.resize w h (some false) he = [ResizeModel.RsEvent.driverResize w h]
    ∧ ResizeModel.RsEvent.waitElementStoppedMoving ∉
        ResizeModel.resize w h (some false) he
    ∧ ResizeModel.resize w h (some true) true =
        [ResizeModel.RsEvent.driverResize w h, ResizeModel.RsEvent.setOverflowHidden,
         ResizeModel.RsEvent.waitElementStoppedMoving, ResizeModel.RsEvent.resetOverflow]
    ∧ ResizeModel.resize w h none he = ResizeModel.resize w h (some true) he := by
  refine ⟨rfl, ?_, rfl, rfl⟩
  simp [ResizeModel.resize]

/-- Claim C9: close() with no reason uses the default PARENT_CALL reason for
the onClose callback and the internal close steps; userClose always invokes
close with USER_CLOSED (also via the template close action and via the
checkClose trigger), so the first reason delivered to onClose distinguishes
a user close from a host close. -/
theorem C9_close_reason_defaults :
    (∀ s : Lifecycle.Inst, s.cClose = none →
      (Lifecycle.close none s).2 = Lifecycle.CloseReason.parentCall)
    ∧ (∀ s : Lifecycle.Inst, s.cClose = none → s.cCloseComponent = false →
        s.cCloseContainer = false →
        (Lifecycle.close none s).1.onCloseLog =
          s.onCloseLog ++ [Lifecycle.CloseReason.parentCall,
            Lifecycle.CloseReason.parentCall, Lifecycle.CloseReason.parentCall])
    ∧ (∀ s : Lifecycle.Inst, Lifecycle.userClose s =
        Lifecycle.close (some Lifecycle.CloseReason.userClosed) s)
    ∧ (∀ s : Lifecycle.Inst, s.cClose = none →
        (Lifecycle.userClose s).2 = Lifecycle.CloseReason.userClosed)
    ∧ (∀ s : Lifecycle.Inst, s.cClose = none → s.cCloseComponent = false →
        s.cCloseContainer = false →
        (Lifecycle.userClose s).1.onCloseLog =
          s.onCloseLog ++ [Lifecycle.CloseReason.userClosed,
            Lifecycle.CloseReason.parentCall, Lifecycle.CloseReason.parentCall])
    ∧ (∀ s : Lifecycle.Inst, Lifecycle.templateCloseAction s = Lifecycle.userClose s)
    ∧ (∀ w : Lifecycle.World, Lifecycle.isClosedW w = true →
        Lifecycle.checkClose w = Lifecycle.userCloseW w)
    ∧ Lifecycle.CloseReason.userClosed ≠ Lifecycle.CloseReason.parentCall := by
  refine ⟨?_, ?_, fun s => rfl, ?_, ?_, fun s => rfl, ?_, by decide⟩
  · intro s h
    have := (Lifecycle.close_run_fields none s h).1
    simpa using this
  · intro s h hcc hct
    obtain ⟨e1, e2, e3, e4, e5, e6, e7, e8, e9, e10, e11, e12⟩ :=
      Lifecycle.close_run_fields none s h
    rw [e10, hcc, hct]
    simp
  · intro s h
    have := (Lifecycle.close_run_fields (some Lifecycle.CloseReason.userClosed) s h).1
    simpa using this
  · intro s h hcc hct
    obtain ⟨e1, e2, e3, e4, e5, e6, e7, e8, e9, e10, e11, e12⟩ :=
      Lifecycle.close_run_fields (some Lifecycle.CloseReason.userClosed) s h
    rw [Lifecycle.userClose, e10, hcc, hct]
    simp
  · intro w hw
    simp [Lifecycle.checkClose, hw]

/-- Claim C9 witness: the theorem applied to the representative instance and
to a window already closed at the immediate check. -/
theorem C9_close_reason_defaults_witness :
    (instEx.cClose = none ∧ instEx.cCloseComponent = false
      ∧ instEx.cCloseContainer = false
      ∧ Lifecycle.isClosedW worldClosedNow = true)
    ∧ ((Lifecycle.close none instEx).2 = Lifecycle.CloseReason.parentCall
      ∧ (Lifecycle.userClose instEx).2 = Lifecycle.CloseReason.userClosed
      ∧ (Lifecycle.userClose instEx).1.onCloseLog =
          instEx.onCloseLog ++ [Lifecycle.CloseReason.userClosed,
            Lifecycle.CloseReason.parentCall, Lifecycle.CloseReason.parentCall]
      ∧ Lifecycle.checkClose worldClosedNow = Lifecycle.userCloseW worldClosedNow) :=
  ⟨⟨rfl, rfl, rfl, rfl⟩,
   C9_close_reason_defaults.1 instEx rfl,
   C9_close_reason_defaults.2.2.2.1 instEx rfl,
   C9_close_reason_defaults.2.2.2.2.1 instEx rfl rfl rfl,
   C9_close_reason_defaults.2.2.2.2.2.2.1 worldClosedNow rfl⟩

/-- Claim C10: getOutlet is memoized: the first call creates a div carrying
the outlet class and caches it, and a second call returns that identical
element with the state unchanged, creating nothing new, so all callers share
one outlet element. -/
theorem C10_getOutlet_memoized (s : OutletModel.OutletSt)
    (h : s.outletCache = none) :
    (OutletModel.getOutlet s).1.tag = "div"
    ∧ (OutletModel.getOutlet s).1.classes = [OutletModel.outletClass]
    ∧ (OutletModel.getOutlet s).2.created = s.created ++ [(OutletModel.getOutlet s).1]
    ∧ (OutletModel.getOutlet s).2.outletCache = some (OutletModel.getOutlet s).1
    ∧ OutletModel.getOutlet (OutletModel.getOutlet s).2
        = ((OutletModel.getOutlet s).1, (OutletModel.getOutlet s).2) := by
  simp [OutletModel.getOutlet, h]

/-- Claim C10 witness: the theorem applied to a fresh instance state. -/
theorem C10_getOutlet_memoized_witness :
    outletFresh.outletCache = none
    ∧ ((OutletModel.getOutlet outletFresh).1.tag = "div"
      ∧ (OutletModel.getOutlet outletFresh).1.classes = [OutletModel.outletClass]
      ∧ (OutletModel.getOutlet outletFresh).2.created
          = outletFresh.created ++ [(OutletModel.getOutlet outletFresh).1]
      ∧ (OutletModel.getOutlet outletFresh).2.outletCache
          = some (OutletModel.getOutlet outletFresh).1
      ∧ OutletModel.getOutlet (OutletModel.getOutlet outletFresh).2
          = ((OutletModel.getOutlet outletFresh).1,
             (OutletModel.getOutlet outletFresh).2)) :=
  ⟨rfl, C10_getOutlet_memoized outletFresh rfl⟩

end Zoid
